import Mathlib

/-!
Verification of the core algorithmic behaviour of the
`fastapi-monitoring-assignment` repository: the request-instrumentation
middleware of `app/main.py` and the load-generation harness of
`load_test.py`, shallowly embedded as pure Lean functions.

Durations (Python floats produced by `time.time()` subtraction) are
modelled as rational numbers; `float('inf')` used as the initial
`min_duration` is modelled by `⊤` of `WithTop ℚ`.
-/

/-- The dictionary returned by `make_request` in `load_test.py`
(lines 36-40 and 43-47): HTTP status (0 on transport failure),
elapsed duration, and the success flag. -/
structure ProbeResult where
  status : Nat
  duration : ℚ
  success : Bool
deriving DecidableEq, Repr

/-- Outcome of the one `requests.get` call inside `make_request`:
either a response with a status code arrived after some elapsed time,
or the call raised (timeout, connection refused, DNS failure, ...). -/
inductive TransportOutcome where
  | response (status : Nat) (duration : ℚ)
  | failure
deriving DecidableEq, Repr

/-- `make_request` from `load_test.py` lines 20-47, as a function of the
transport outcome: a received response yields
`{status, duration, success := status < 400}` (lines 36-40); any raised
exception is caught and yields `{status := 0, duration := 0,
success := False}` (lines 41-47).  The Python `try`/`except Exception`
makes the function total: it never propagates an exception. -/
def make_request : TransportOutcome → ProbeResult
  | .response s d => { status := s, duration := d, success := decide (s < 400) }
  | .failure => { status := 0, duration := 0, success := false }

/-- The `results` accumulator dictionary of `run_load_test`
(`load_test.py` lines 53-60). -/
structure LoadStatistics where
  total_requests : Nat
  successful_requests : Nat
  failed_requests : Nat
  total_duration : ℚ
  min_duration : WithTop ℚ
  max_duration : ℚ
deriving DecidableEq, Repr

/-- The initial accumulator of `run_load_test` lines 53-60:
all counters 0, `min_duration = float('inf')`, `max_duration = 0`. -/
def initStats : LoadStatistics :=
  { total_requests := 0
    successful_requests := 0
    failed_requests := 0
    total_duration := 0
    min_duration := ⊤
    max_duration := 0 }

/-- One iteration of the result-folding body of `run_load_test`
(lines 70-80): increment `total_requests`, add the duration, increment
exactly one of `successful_requests` / `failed_requests` according to
`result['success']`, and update the running min and max. -/
def foldResult (s : LoadStatistics) (r : ProbeResult) : LoadStatistics :=
  { total_requests := s.total_requests + 1
    successful_requests :=
      if r.success then s.successful_requests + 1 else s.successful_requests
    failed_requests :=
      if r.success then s.failed_requests else s.failed_requests + 1
    total_duration := s.total_duration + r.duration
    min_duration := min s.min_duration (r.duration : WithTop ℚ)
    max_duration := max s.max_duration r.duration }

/-- The derived report fields computed at the end of `run_load_test`
(lines 89-95). -/
structure Report where
  avg_duration : ℚ
  success_rate : ℚ
deriving DecidableEq, Repr

/-- Lines 89-95 of `load_test.py`: `avg_duration` and `success_rate`
computed once from the accumulated counters, both 0 when
`total_requests = 0`. -/
def finalize (s : LoadStatistics) : Report :=
  if 0 < s.total_requests then
    { avg_duration := s.total_duration / (s.total_requests : ℚ)
      success_rate := (s.successful_requests : ℚ) / (s.total_requests : ℚ) * 100 }
  else
    { avg_duration := 0, success_rate := 0 }

/-- The batch loop of `run_load_test` lines 62-87, abstracted over the
trace of batches the wall-clock loop performs.  Each loop iteration
submits exactly `cu` (`concurrent_users`) tasks
(`for _ in range(concurrent_users)`, line 66), each of which runs
`make_request` on some transport outcome, waits for all of them, and
folds every result into the accumulator; a batch is therefore a
function `Fin cu → TransportOutcome`.  Since `make_request` catches
every exception, `future.result()` never raises and the
`except` branch of lines 82-84 is unreachable. -/
def runLoadTest (cu : Nat) (batches : List (Fin cu → TransportOutcome)) :
    LoadStatistics :=
  batches.foldl
    (fun s f => (List.ofFn (fun i => make_request (f i))).foldl foldResult s)
    initStats

/-- An inbound HTTP request as seen by the middleware of `app/main.py`.
`rawPath` is `request.url.path` (the concrete path the client sent);
`routeTemplate` is the matched route's path template (e.g.
`/users/\x7bid\x7d`), an attribute of the routing layer that the
middleware could consult but — as proved below — does not. -/
structure HttpRequest where
  method : String
  rawPath : String
  routeTemplate : String
deriving DecidableEq, Repr

/-- Outcome of `await call_next(request)` inside `monitor_requests`:
either the wrapped handler produced a response with a status code, or
it raised an exception. -/
inductive HandlerOutcome where
  | response (status : Nat)
  | raises
deriving DecidableEq, Repr

/-- The response `monitor_requests` returns to the transport layer:
either the wrapped handler's response passed through unchanged
(line 81), or the fixed `JSONResponse(status_code=500,
content=\x7b"detail": "Internal Server Error"\x7d)` built in the
`except` branch (lines 85-89). -/
inductive MwResponse where
  | passthrough (status : Nat)
  | jsonError (status : Nat) (detail : String)
deriving DecidableEq, Repr

/-- Status code carried by a middleware response. -/
def MwResponse.statusCode : MwResponse → Nat
  | .passthrough s => s
  | .jsonError s _ => s

/-- Observable side-effect state of the middleware: the
`http_requests_total` counter keyed by (method, endpoint, http_status),
the observation count of the `http_request_duration_seconds` histogram
keyed by (method, endpoint), and the number of `logger.info` request
log lines emitted. -/
structure ObsState where
  counter : String → String → Nat → Nat
  histCount : String → String → Nat
  infoLogs : Nat

/-- The empty metrics/log state: a freshly created Prometheus counter
and histogram hold 0 for every label combination, and no log line has
been emitted. -/
def initObs : ObsState :=
  { counter := fun _ _ _ => 0
    histCount := fun _ _ => 0
    infoLogs := 0 }

/-- The `monitor_requests` middleware of `app/main.py` lines 55-89,
as a state transformer on the observable metrics/log state.  On a
normal return of `call_next` (lines 60-81): increment
`REQUEST_COUNT.labels(method=request.method,
endpoint=request.url.path, http_status=response.status_code)`,
observe one value in `REQUEST_LATENCY.labels(method, request.url.path)`,
emit one `logger.info` line, and return the response unchanged.  On an
exception (lines 84-89): emit a `logger.error` line (not counted in
`infoLogs`), record nothing in either metric, and return
`JSONResponse(500, detail "Internal Server Error")`. -/
def monitor_requests (st : ObsState) (req : HttpRequest)
    (out : HandlerOutcome) : ObsState × MwResponse :=
  match out with
  | .response status =>
      ({ counter := fun m e s =>
           if m = req.method ∧ e = req.rawPath ∧ s = status then
             st.counter m e s + 1
           else st.counter m e s
         histCount := fun m e =>
           if m = req.method ∧ e = req.rawPath then
             st.histCount m e + 1
           else st.histCount m e
         infoLogs := st.infoLogs + 1 },
       .passthrough status)
  | .raises =>
      (st, .jsonError 500 "Internal Server Error")

/-- One request-response cycle observed by the middleware: the request
together with the wrapped handler's outcome. -/
structure RequestEvent where
  req : HttpRequest
  out : HandlerOutcome
deriving DecidableEq, Repr

/-- A sequence of request-response cycles processed by the middleware,
threading the metrics/log state through `monitor_requests`. -/
def processRequests (st : ObsState) (evs : List RequestEvent) : ObsState :=
  evs.foldl (fun s ev => (monitor_requests s ev.req ev.out).1) st

/-- Does the event record a counter increment at labels (m, e, s)?
True exactly when the handler returned normally with status `s` and the
request's method and raw path are `m` and `e`. -/
def RequestEvent.hitsCounter (ev : RequestEvent) (m e : String) (s : Nat) :
    Bool :=
  match ev.out with
  | .response s' => decide (m = ev.req.method ∧ e = ev.req.rawPath ∧ s = s')
  | .raises => false

/-- Does the event record a histogram observation at labels (m, e)?
True exactly when the handler returned normally (any status) and the
request's method and raw path are `m` and `e`. -/
def RequestEvent.hitsHist (ev : RequestEvent) (m e : String) : Bool :=
  match ev.out with
  | .response _ => decide (m = ev.req.method ∧ e = ev.req.rawPath)
  | .raises => false

/-! ## IEEE-754 double-precision model of the duration accumulation

Python's `results['total_duration'] += result['duration']`
(`load_test.py` line 72) adds 64-bit binary floats, so the accumulated
sum is rounded to 53 significant bits after every fold.  The functions
below model that rounding (round to nearest, ties to even, with
unbounded exponent — exact for the magnitudes a latency sum can take,
far from overflow and subnormals) so that the order-(in)dependence of
`total_duration` can be settled against the program's arithmetic
rather than against exact rational arithmetic. -/

/-- Fuelled base-2 logarithm on naturals; `natFuelLog2 fuel n` is
`⌊log₂ n⌋` whenever `fuel ≥ ⌊log₂ n⌋` (and `n ≥ 1`). -/
def natFuelLog2 : Nat → Nat → Nat
  | 0, _ => 0
  | fuel + 1, n => if 2 ≤ n then natFuelLog2 fuel (n / 2) + 1 else 0

/-- `⌊log₂ n⌋` for `n ≥ 1` (0 at 0), kernel-reducible. -/
def natLog2 (n : Nat) : Nat := natFuelLog2 n n

/-- `⌊log₂ |q|⌋` for a nonzero rational `q = n / d`: scale the
numerator by a power of two large enough that the integer quotient is
at least 1, take its integer log, and shift back. -/
def ratFloorLog2 (q : ℚ) : ℤ :=
  let n := q.num.natAbs
  let d := q.den
  let B := natLog2 d + 1
  (natLog2 (n * 2 ^ B / d) : ℤ) - B

/-- Multiply a rational by an integer power of two (exactly). -/
def mulPow2 (q : ℚ) (k : ℤ) : ℚ :=
  if 0 ≤ k then q * ((2 ^ k.toNat : ℕ) : ℚ) else q / ((2 ^ (-k).toNat : ℕ) : ℚ)

/-- Floor of a rational as an integer. -/
def ratFloor (q : ℚ) : ℤ := q.num.fdiv (q.den : ℤ)

/-- Round a rational to the nearest integer, ties to even — the IEEE-754
default rounding of the fractional part. -/
def roundHalfEven (q : ℚ) : ℤ :=
  let f := ratFloor q
  let r := q - (f : ℚ)
  if r < 1 / 2 then f
  else if 1 / 2 < r then f + 1
  else if f % 2 = 0 then f else f + 1

/-- Round a rational to the nearest IEEE-754 binary64 value (53-bit
significand, round to nearest, ties to even, unbounded exponent). -/
def fl (q : ℚ) : ℚ :=
  if q = 0 then 0
  else
    let e : ℤ := ratFloorLog2 q - 52
    mulPow2 ((roundHalfEven (mulPow2 q (-e)) : ℤ) : ℚ) e

/-- One Python float addition: add exactly, then round the sum to
binary64. -/
def floatAdd (a b : ℚ) : ℚ := fl (a + b)

/-- The result-folding body of `run_load_test` lines 70-80 with the
`total_duration` accumulation modelled as IEEE-754 double addition
(line 72 adds Python floats); all other field updates (integer
counters, comparisons for min/max) are exact in Python as well and are
identical to `foldResult`. -/
def foldResultFP (s : LoadStatistics) (r : ProbeResult) : LoadStatistics :=
  { total_requests := s.total_requests + 1
    successful_requests :=
      if r.success then s.successful_requests + 1 else s.successful_requests
    failed_requests :=
      if r.success then s.failed_requests else s.failed_requests + 1
    total_duration := floatAdd s.total_duration r.duration
    min_duration := min s.min_duration (r.duration : WithTop ℚ)
    max_duration := max s.max_duration r.duration }

/-- The order-independent fields of the accumulator: everything except
the float-accumulated `total_duration`. -/
def coreStats (s : LoadStatistics) : Nat × Nat × Nat × WithTop ℚ × ℚ :=
  (s.total_requests, s.successful_requests, s.failed_requests,
   s.min_duration, s.max_duration)

/-- The action of one fold on the order-independent fields alone. -/
def foldCore (t : Nat × Nat × Nat × WithTop ℚ × ℚ) (r : ProbeResult) :
    Nat × Nat × Nat × WithTop ℚ × ℚ :=
  (t.1 + 1,
   if r.success then t.2.1 + 1 else t.2.1,
   if r.success then t.2.2.1 else t.2.2.1 + 1,
   min t.2.2.2.1 (r.duration : WithTop ℚ),
   max t.2.2.2.2 r.duration)

/-- The IEEE-754 binary64 value nearest to 0.1:
`3602879701896397 × 2⁻⁵⁵`. -/
def d01 : ℚ := 3602879701896397 / 36028797018963968

/-- The IEEE-754 binary64 value nearest to 0.2:
`3602879701896397 × 2⁻⁵⁴`. -/
def d02 : ℚ := 3602879701896397 / 18014398509481984

/-- The IEEE-754 binary64 value nearest to 0.3:
`5404319552844595 × 2⁻⁵⁴`. -/
def d03 : ℚ := 5404319552844595 / 18014398509481984

/-! ## Helper lemmas about the aggregator fold -/

/-- Folding a list of results adds its length to `total_requests`. -/
lemma foldl_total_requests (l : List ProbeResult) (s : LoadStatistics) :
    (l.foldl foldResult s).total_requests = s.total_requests + l.length := by
  induction l generalizing s with
  | nil => simp
  | cons a t ih => rw [List.foldl_cons, ih]; simp [foldResult]; omega

/-- `runLoadTest` performs `cu` folds per batch, so `total_requests`
is `cu` times the number of batches. -/
lemma runLoadTest_total (cu : Nat) (batches : List (Fin cu → TransportOutcome)) :
    (runLoadTest cu batches).total_requests = cu * batches.length := by
  have key : ∀ (bs : List (Fin cu → TransportOutcome)) (s : LoadStatistics),
      (bs.foldl (fun s f =>
          (List.ofFn (fun i => make_request (f i))).foldl foldResult s) s).total_requests
        = s.total_requests + cu * bs.length := by
    intro bs
    induction bs with
    | nil => intro s; simp
    | cons b t ih =>
      intro s
      rw [List.foldl_cons, ih, foldl_total_requests]
      simp [Nat.mul_succ]
      omega
  have h := key batches initStats
  simpa [runLoadTest, initStats] using h

/-- Two successive folds commute: all six field updates
(+1, +1, +, min, max) are order-independent. -/
lemma foldResult_right_comm (s : LoadStatistics) (a b : ProbeResult) :
    foldResult (foldResult s a) b = foldResult (foldResult s b) a := by
  cases ha : a.success <;> cases hb : b.success <;>
    simp [foldResult, ha, hb, add_right_comm, min_right_comm, sup_right_comm]

/-- Folding never increases `min_duration`. -/
lemma foldl_min_le_init (l : List ProbeResult) (s : LoadStatistics) :
    (l.foldl foldResult s).min_duration ≤ s.min_duration := by
  induction l generalizing s with
  | nil => simp
  | cons a t ih =>
    rw [List.foldl_cons]
    exact le_trans (ih _) (by simp [foldResult])

/-- The final `min_duration` is a lower bound of every folded duration. -/
lemma foldl_min_le_mem (l : List ProbeResult) (s : LoadStatistics)
    (r : ProbeResult) (hr : r ∈ l) :
    (l.foldl foldResult s).min_duration ≤ (r.duration : WithTop ℚ) := by
  induction l generalizing s with
  | nil => cases hr
  | cons a t ih =>
    rw [List.foldl_cons]
    rcases List.mem_cons.mp hr with h | h
    · subst h
      exact le_trans (foldl_min_le_init t _) (by simp [foldResult])
    · exact ih _ h

/-- Any common lower bound of the starting `min_duration` and of all
folded durations bounds the final `min_duration` from below. -/
lemma le_foldl_min (l : List ProbeResult) (s : LoadStatistics) (c : WithTop ℚ)
    (hs : c ≤ s.min_duration) (hl : ∀ r ∈ l, c ≤ (r.duration : WithTop ℚ)) :
    c ≤ (l.foldl foldResult s).min_duration := by
  induction l generalizing s with
  | nil => simpa using hs
  | cons a t ih =>
    rw [List.foldl_cons]
    refine ih _ ?_ (fun r hr => hl r (List.mem_cons_of_mem a hr))
    simp only [foldResult]
    exact le_min hs (hl a (List.mem_cons_self a t))

/-! ## Claims about the HTTP probe and the aggregator -/

/-- C3: the probe never throws (it is a total function of the transport
outcome); every transport failure yields `status = 0` and
`success = false`; and when a response is received, `success = true`
iff its status is < 400. -/
theorem C3_probe_never_throws (s : Nat) (d : ℚ) :
    (make_request TransportOutcome.failure).status = 0 ∧
    (make_request TransportOutcome.failure).success = false ∧
    ((make_request (TransportOutcome.response s d)).success = true ↔ s < 400) := by
  refine ⟨rfl, rfl, ?_⟩
  simp [make_request]

/-- C4: `finalize` computes `avg_duration = total_duration /
total_requests` and `success_rate = successful / total × 100` when
`total_requests > 0`, and both as 0 when `total_requests = 0`; the
accumulator starts with `min_duration = +∞` and `max_duration = 0`, so
an empty run (no folds, accumulator still `initStats`) reports
`avg = 0`, `success_rate = 0`, `min = +∞`, `max = 0`. -/
theorem C4_finalize_report (s : LoadStatistics) :
    (0 < s.total_requests →
      (finalize s).avg_duration = s.total_duration / (s.total_requests : ℚ) ∧
      (finalize s).success_rate =
        (s.successful_requests : ℚ) / (s.total_requests : ℚ) * 100) ∧
    (s.total_requests = 0 →
      (finalize s).avg_duration = 0 ∧ (finalize s).success_rate = 0) ∧
    initStats.min_duration = ⊤ ∧
    initStats.max_duration = 0 ∧
    runLoadTest 5 [] = initStats ∧
    (finalize initStats).avg_duration = 0 ∧
    (finalize initStats).success_rate = 0 := by
  refine ⟨fun h => ?_, fun h => ?_, rfl, rfl, rfl, rfl, rfl⟩
  · simp [finalize, h]
  · simp [finalize, h]

/-- Witness for C4 at a concrete accumulator with `total_requests = 0`. -/
theorem C4_finalize_report_witness :
    (finalize initStats).avg_duration = 0 ∧ (finalize initStats).success_rate = 0 :=
  (C4_finalize_report initStats).2.1 rfl

/-- The projection `coreStats` commutes the float-accumulating fold
down to `foldCore`. -/
lemma coreStats_foldResultFP (s : LoadStatistics) (r : ProbeResult) :
    coreStats (foldResultFP s r) = foldCore (coreStats s) r := rfl

/-- Folding a list and then projecting equals folding the projection. -/
lemma coreStats_foldl (l : List ProbeResult) (s : LoadStatistics) :
    coreStats (l.foldl foldResultFP s) = l.foldl foldCore (coreStats s) := by
  induction l generalizing s with
  | nil => rfl
  | cons a t ih => rw [List.foldl_cons, List.foldl_cons, ih, coreStats_foldResultFP]

/-- Two successive core folds commute: the +1, conditional +1, min and
max updates are all order-independent. -/
lemma foldCore_right_comm (t : Nat × Nat × Nat × WithTop ℚ × ℚ)
    (a b : ProbeResult) :
    foldCore (foldCore t a) b = foldCore (foldCore t b) a := by
  cases ha : a.success <;> cases hb : b.success <;>
    simp [foldCore, ha, hb, min_right_comm, sup_right_comm]

unseal Rat.add Rat.mul Rat.sub Rat.inv in
/-- C5 counterexample: folding the binary64 durations nearest to 0.1,
0.2, 0.3 (a permutation of the same three successful probe results) in
the two opposite orders yields different final `total_duration` under
the program's float accumulation: `0.1 + 0.2 + 0.3` rounds to
`5404319552844596 × 2⁻⁵³` (`0.6000000000000001`) while
`0.3 + 0.2 + 0.1` rounds to `5404319552844595 × 2⁻⁵³` (`0.6`), so the
fold does not yield identical final values of all six fields in any
order. -/
theorem C5_counterexample :
    [make_request (TransportOutcome.response 200 d01),
     make_request (TransportOutcome.response 200 d02),
     make_request (TransportOutcome.response 200 d03)].Perm
      [make_request (TransportOutcome.response 200 d03),
       make_request (TransportOutcome.response 200 d02),
       make_request (TransportOutcome.response 200 d01)] ∧
    ([make_request (TransportOutcome.response 200 d01),
      make_request (TransportOutcome.response 200 d02),
      make_request (TransportOutcome.response 200 d03)].foldl
        foldResultFP initStats).total_duration =
      mkRat 5404319552844596 9007199254740992 ∧
    ([make_request (TransportOutcome.response 200 d03),
      make_request (TransportOutcome.response 200 d02),
      make_request (TransportOutcome.response 200 d01)].foldl
        foldResultFP initStats).total_duration =
      mkRat 5404319552844595 9007199254740992 ∧
    ([make_request (TransportOutcome.response 200 d01),
      make_request (TransportOutcome.response 200 d02),
      make_request (TransportOutcome.response 200 d03)].foldl
        foldResultFP initStats).total_duration ≠
      ([make_request (TransportOutcome.response 200 d03),
        make_request (TransportOutcome.response 200 d02),
        make_request (TransportOutcome.response 200 d01)].foldl
          foldResultFP initStats).total_duration := by
  refine ⟨by decide, by decide, by decide, by decide⟩

/-- C5 amended: folding any permutation of a list of probe results
from any starting accumulator, with `total_duration` accumulated by
IEEE-754 double addition as the program does, yields identical final
values of the five remaining fields — `total_requests`,
`successful_requests`, `failed_requests`, `min_duration`,
`max_duration`; `total_duration` itself is excluded, since float
addition is not order-independent (see the counterexample). -/
theorem C5_fold_order_independent_core (l₁ l₂ : List ProbeResult)
    (h : l₁.Perm l₂) (s : LoadStatistics) :
    coreStats (l₁.foldl foldResultFP s) = coreStats (l₂.foldl foldResultFP s) := by
  rw [coreStats_foldl, coreStats_foldl]
  exact h.foldl_eq' (fun x _ y _ z => foldCore_right_comm z x y) _

/-- Witness for C5: swapping a concrete success and a concrete
transport failure leaves the five core fields identical. -/
theorem C5_fold_order_independent_core_witness :
    coreStats ([make_request (TransportOutcome.response 200 1),
      make_request TransportOutcome.failure].foldl foldResultFP initStats) =
      coreStats ([make_request TransportOutcome.failure,
        make_request (TransportOutcome.response 200 1)].foldl foldResultFP initStats) :=
  C5_fold_order_independent_core _ _
    (List.Perm.swap (make_request TransportOutcome.failure)
      (make_request (TransportOutcome.response 200 1)) []) initStats

/-- C8: the dispatcher submits exactly `pool_size` probes per batch and
drains each batch before the next, so with `pool_size = 5`, a run in
which every probe returns a result and no fold step errors (which is
how every run of this code behaves, since `make_request` catches all
exceptions) has `total_requests = 5 × #batches`, a positive multiple
of 5 whenever at least one batch ran. -/
theorem C8_total_multiple_of_pool (batches : List (Fin 5 → TransportOutcome))
    (h : batches ≠ []) :
    (runLoadTest 5 batches).total_requests = 5 * batches.length ∧
    (runLoadTest 5 batches).total_requests % 5 = 0 ∧
    0 < (runLoadTest 5 batches).total_requests := by
  have htot := runLoadTest_total 5 batches
  have hlen : 0 < batches.length := List.length_pos.mpr h
  refine ⟨htot, ?_, ?_⟩
  · simp [htot]
  · omega

/-- Witness for C8 at a concrete one-batch trace. -/
theorem C8_total_multiple_of_pool_witness :
    0 < (runLoadTest 5 [fun _ => TransportOutcome.response 200 1]).total_requests :=
  (C8_total_multiple_of_pool [fun _ => TransportOutcome.response 200 1]
    (by simp)).2.2

/-- C9: folding one `ProbeResult` increments `total_requests` by
exactly 1 and exactly one of `successful_requests` /
`failed_requests` by exactly 1 (according to the `success` flag), so
the invariant `total = successful + failed` is preserved. -/
theorem C9_fold_preserves_invariant (s : LoadStatistics) (r : ProbeResult)
    (h : s.total_requests = s.successful_requests + s.failed_requests) :
    (foldResult s r).total_requests = s.total_requests + 1 ∧
    (r.success = true →
      (foldResult s r).successful_requests = s.successful_requests + 1 ∧
      (foldResult s r).failed_requests = s.failed_requests) ∧
    (r.success = false →
      (foldResult s r).successful_requests = s.successful_requests ∧
      (foldResult s r).failed_requests = s.failed_requests + 1) ∧
    (foldResult s r).total_requests =
      (foldResult s r).successful_requests + (foldResult s r).failed_requests := by
  cases hr : r.success <;> simp [foldResult, hr] <;> omega

/-- Witness for C9 at the empty accumulator and a concrete failed probe. -/
theorem C9_fold_preserves_invariant_witness :
    (foldResult initStats (make_request TransportOutcome.failure)).total_requests =
      (foldResult initStats (make_request TransportOutcome.failure)).successful_requests +
        (foldResult initStats (make_request TransportOutcome.failure)).failed_requests :=
  (C9_fold_preserves_invariant initStats (make_request TransportOutcome.failure)
    rfl).2.2.2

/-- C10: a transport-failed probe carries `duration = 0`, so any run
whose folded results include a transport failure (all real durations
being nonnegative) ends with `min_duration = 0` — indistinguishable
from a genuine zero-latency request. -/
theorem C10_failure_forces_min_zero (results : List ProbeResult)
    (hfail : make_request TransportOutcome.failure ∈ results)
    (hnonneg : ∀ r ∈ results, 0 ≤ r.duration) :
    (make_request TransportOutcome.failure).duration = 0 ∧
    (results.foldl foldResult initStats).min_duration = 0 := by
  refine ⟨rfl, le_antisymm ?_ ?_⟩
  · simpa [make_request] using foldl_min_le_mem results initStats _ hfail
  · refine le_foldl_min results initStats 0 (by simp [initStats]) ?_
    intro r hr
    exact_mod_cast hnonneg r hr

/-- Witness for C10: a run consisting of one failed probe. -/
theorem C10_failure_forces_min_zero_witness :
    ([make_request TransportOutcome.failure].foldl foldResult initStats).min_duration = 0 :=
  (C10_failure_forces_min_zero [make_request TransportOutcome.failure]
    (by simp) (by decide)).2

/-! ## Helper lemmas about the middleware's counting behaviour -/

/-- One middleware step changes the counter cell (m, e, s) by exactly
the indicator of the event hitting that cell. -/
lemma monitor_step_counter (st : ObsState) (ev : RequestEvent)
    (m e : String) (s : Nat) :
    ((monitor_requests st ev.req ev.out).1).counter m e s =
      st.counter m e s + (if ev.hitsCounter m e s then 1 else 0) := by
  cases hout : ev.out with
  | raises => simp [monitor_requests, RequestEvent.hitsCounter, hout]
  | response s' =>
    by_cases hc : m = ev.req.method ∧ e = ev.req.rawPath ∧ s = s' <;>
      simp [monitor_requests, RequestEvent.hitsCounter, hout, hc]

/-- One middleware step changes the histogram cell (m, e) by exactly
the indicator of the event hitting that cell. -/
lemma monitor_step_hist (st : ObsState) (ev : RequestEvent) (m e : String) :
    ((monitor_requests st ev.req ev.out).1).histCount m e =
      st.histCount m e + (if ev.hitsHist m e then 1 else 0) := by
  cases hout : ev.out with
  | raises => simp [monitor_requests, RequestEvent.hitsHist, hout]
  | response s' =>
    by_cases hc : m = ev.req.method ∧ e = ev.req.rawPath <;>
      simp [monitor_requests, RequestEvent.hitsHist, hout, hc]

/-- The counter cell (m, e, s) after a sequence of requests counts the
events whose method, raw path and (normal) response status match. -/
lemma processRequests_counter (evs : List RequestEvent) (st : ObsState)
    (m e : String) (s : Nat) :
    (processRequests st evs).counter m e s =
      st.counter m e s + evs.countP (fun ev => ev.hitsCounter m e s) := by
  induction evs generalizing st with
  | nil => simp [processRequests]
  | cons a t ih =>
    have hstep := monitor_step_counter st a m e s
    have : processRequests st (a :: t) =
        processRequests ((monitor_requests st a.req a.out).1) t := rfl
    rw [this, ih, hstep, List.countP_cons]
    by_cases ha : a.hitsCounter m e s <;> simp [ha] <;> omega

/-- The histogram cell (m, e) after a sequence of requests counts the
events whose method and raw path match and whose handler returned
normally, regardless of the status. -/
lemma processRequests_hist (evs : List RequestEvent) (st : ObsState)
    (m e : String) :
    (processRequests st evs).histCount m e =
      st.histCount m e + evs.countP (fun ev => ev.hitsHist m e) := by
  induction evs generalizing st with
  | nil => simp [processRequests]
  | cons a t ih =>
    have hstep := monitor_step_hist st a m e
    have : processRequests st (a :: t) =
        processRequests ((monitor_requests st a.req a.out).1) t := rfl
    rw [this, ih, hstep, List.countP_cons]
    by_cases ha : a.hitsHist m e <;> simp [ha] <;> omega

/-! ## Claims about the instrumentation middleware -/

/-- C1 counterexample: a request whose handler raises leaves the
metrics/log state completely unchanged — the counter cell for the
synthetic status 500 stays at 0 (not 1) and no request log line is
emitted, so no RequestObservation at all is recorded for that cycle,
contradicting "exactly one ... including when the wrapped handler
raises". -/
theorem C1_counterexample :
    (monitor_requests initObs ⟨"GET", "/", "/"⟩ HandlerOutcome.raises).1.counter
        "GET" "/" 500 = 0 ∧
    (monitor_requests initObs ⟨"GET", "/", "/"⟩ HandlerOutcome.raises).1.infoLogs = 0 ∧
    ¬ (monitor_requests initObs ⟨"GET", "/", "/"⟩ HandlerOutcome.raises).1.counter
        "GET" "/" 500 = 1 := by
  refine ⟨rfl, rfl, ?_⟩
  simp [monitor_requests, initObs]

/-- C1 amended: when the wrapped handler returns normally, exactly one
observation is recorded (counter +1 at the request's labels, one
histogram observation, one log line); when the handler raises, the
middleware records no observation at all — it only returns the
synthetic 500 error response. -/
theorem C1_observation_per_cycle (st : ObsState) (req : HttpRequest)
    (status : Nat) :
    ((monitor_requests st req (HandlerOutcome.response status)).1.counter
        req.method req.rawPath status =
      st.counter req.method req.rawPath status + 1) ∧
    ((monitor_requests st req (HandlerOutcome.response status)).1.histCount
        req.method req.rawPath = st.histCount req.method req.rawPath + 1) ∧
    ((monitor_requests st req (HandlerOutcome.response status)).1.infoLogs =
      st.infoLogs + 1) ∧
    (monitor_requests st req HandlerOutcome.raises).1 = st ∧
    (monitor_requests st req HandlerOutcome.raises).2 =
      MwResponse.jsonError 500 "Internal Server Error" := by
  refine ⟨?_, ?_, rfl, rfl, rfl⟩ <;> simp [monitor_requests]

/-- C2 counterexample: for a request to the raw path `/api/data/42`
matched by the route template `/api/data/\x7bid\x7d`, the middleware
increments the counter and histogram at the raw path, and the cells
labelled by the route template stay at 0 — the endpoint label is not
the route template. -/
theorem C2_counterexample :
    (monitor_requests initObs ⟨"GET", "/api/data/42", "/api/data/\x7bid\x7d"⟩
        (HandlerOutcome.response 200)).1.counter "GET" "/api/data/42" 200 = 1 ∧
    (monitor_requests initObs ⟨"GET", "/api/data/42", "/api/data/\x7bid\x7d"⟩
        (HandlerOutcome.response 200)).1.counter
        "GET" "/api/data/\x7bid\x7d" 200 = 0 ∧
    (monitor_requests initObs ⟨"GET", "/api/data/42", "/api/data/\x7bid\x7d"⟩
        (HandlerOutcome.response 200)).1.histCount
        "GET" "/api/data/\x7bid\x7d" = 0 := by
  refine ⟨?_, ?_, ?_⟩ <;> simp [monitor_requests, initObs]

/-- C2 amended: the endpoint label used for both metrics is the raw
request path (`request.url.path`): the counter and histogram cells at
the raw path are incremented, and the cells at any other endpoint
label — in particular the route template whenever it differs from the
raw path — are unchanged. -/
theorem C2_label_is_raw_path (st : ObsState) (req : HttpRequest)
    (status : Nat) (e : String) (he : e ≠ req.rawPath) :
    ((monitor_requests st req (HandlerOutcome.response status)).1.counter
        req.method req.rawPath status =
      st.counter req.method req.rawPath status + 1) ∧
    ((monitor_requests st req (HandlerOutcome.response status)).1.histCount
        req.method req.rawPath = st.histCount req.method req.rawPath + 1) ∧
    ((monitor_requests st req (HandlerOutcome.response status)).1.counter
        req.method e status = st.counter req.method e status) ∧
    ((monitor_requests st req (HandlerOutcome.response status)).1.histCount
        req.method e = st.histCount req.method e) := by
  refine ⟨?_, ?_, ?_, ?_⟩ <;> simp [monitor_requests, he]

/-- Witness for C2 amended, at a parametrized-path request whose route
template differs from its raw path. -/
theorem C2_label_is_raw_path_witness :
    (monitor_requests initObs ⟨"GET", "/api/data/42", "/api/data/\x7bid\x7d"⟩
        (HandlerOutcome.response 200)).1.counter
        "GET" "/api/data/\x7bid\x7d" 200 =
      initObs.counter "GET" "/api/data/\x7bid\x7d" 200 :=
  (C2_label_is_raw_path initObs ⟨"GET", "/api/data/42", "/api/data/\x7bid\x7d"⟩
    200 "/api/data/\x7bid\x7d" (by decide)).2.2.1

/-- C7: when the wrapped handler raises, the middleware never lets the
error propagate: it returns the fixed, well-formed structured error
response `JSONResponse(500, detail "Internal Server Error")`, whose
status is 500. -/
theorem C7_error_translated_to_500 (st : ObsState) (req : HttpRequest) :
    (monitor_requests st req HandlerOutcome.raises).2 =
      MwResponse.jsonError 500 "Internal Server Error" ∧
    (monitor_requests st req HandlerOutcome.raises).2.statusCode = 500 :=
  ⟨rfl, rfl⟩

/-- C6: starting from fresh metrics, after N identical successful
requests (status < 400, handler returning normally) the counter cell
for (method, endpoint, status) equals N; and for any sequence of
requests to one (method, endpoint) in which every handler returns
normally, the histogram observation count for that (method, endpoint)
equals the total number of those requests, regardless of the
individual response statuses. -/
theorem C6_counter_and_histogram_counts (N : Nat) (req : HttpRequest)
    (s : Nat) (hs : s < 400) (evs : List RequestEvent)
    (hall : ∀ ev ∈ evs, ev.req.method = req.method ∧
      ev.req.rawPath = req.rawPath ∧
      ∃ s', ev.out = HandlerOutcome.response s') :
    (processRequests initObs
        (List.replicate N ⟨req, HandlerOutcome.response s⟩)).counter
        req.method req.rawPath s = N ∧
    (processRequests initObs evs).histCount req.method req.rawPath =
      evs.length := by
  constructor
  · rw [processRequests_counter]
    have hcnt : (List.replicate N
        (⟨req, HandlerOutcome.response s⟩ : RequestEvent)).countP
        (fun ev => ev.hitsCounter req.method req.rawPath s) =
        (List.replicate N (⟨req, HandlerOutcome.response s⟩ : RequestEvent)).length := by
      rw [List.countP_eq_length]
      intro ev hev
      rw [List.eq_of_mem_replicate hev]
      simp [RequestEvent.hitsCounter]
    simp [initObs, hcnt]
  · rw [processRequests_hist]
    have hcnt : evs.countP
        (fun ev => ev.hitsHist req.method req.rawPath) = evs.length := by
      rw [List.countP_eq_length]
      intro ev hev
      obtain ⟨hm, hp, s', hout⟩ := hall ev hev
      simp [RequestEvent.hitsHist, hout, hm, hp]
    simp [initObs, hcnt]

/-- Witness for C6: two identical successful GET / requests give
counter 2, and a two-request sequence with statuses 200 and 500 gives
histogram count 2. -/
theorem C6_counter_and_histogram_counts_witness :
    (processRequests initObs
        (List.replicate 2 ⟨⟨"GET", "/", "/"⟩, HandlerOutcome.response 200⟩)).counter
        "GET" "/" 200 = 2 ∧
    (processRequests initObs
        [⟨⟨"GET", "/", "/"⟩, HandlerOutcome.response 200⟩,
         ⟨⟨"GET", "/", "/"⟩, HandlerOutcome.response 500⟩]).histCount
        "GET" "/" = 2 :=
  C6_counter_and_histogram_counts 2 ⟨"GET", "/", "/"⟩ 200 (by decide)
    [⟨⟨"GET", "/", "/"⟩, HandlerOutcome.response 200⟩,
     ⟨⟨"GET", "/", "/"⟩, HandlerOutcome.response 500⟩]
    (by
      intro ev hev
      rcases List.mem_cons.mp hev with h | h
      · subst h; exact ⟨rfl, rfl, 200, rfl⟩
      · rw [List.mem_singleton.mp h]; exact ⟨rfl, rfl, 500, rfl⟩)
